/-
  Verification of the quiz-grading and progress-aggregation core of the
  learning-management backend (src/backend/course_service.py together with
  the data model of src/backend/models.py).

  The embedding is shallow:
  * Python `float` percentages are modelled exactly by `ℚ` (the grading
    arithmetic here is small-integer division and comparison);
  * the MongoDB collections touched by the modelled operations are lists
    of records inside an explicit `Store` threaded through the functions;
  * `datetime.now(timezone.utc).isoformat()` is modelled by an explicit
    `now : String` parameter;
  * a Python runtime exception (attribute access on `None`) is modelled by
    `Option`: `none` means the call raises.

  Only the record fields that the modelled operations read or write are
  carried; purely descriptive metadata (titles, descriptions, tags,
  timestamps never inspected by grading or aggregation) is omitted.
-/
import Mathlib

namespace Schulung

/-! ## Data model (src/backend/models.py) -/

/-- `models.QuestionType` (models.py lines 19-24). -/
inductive QuestionType where
  | multiple_choice
  | single_choice
  | true_false
  | text_input
  | essay
deriving DecidableEq, Repr

/-- `models.QuizOption` (models.py lines 27-30). -/
structure QuizOption where
  id : String
  text : String
  is_correct : Bool
deriving DecidableEq, Repr

/-- `models.QuizQuestion` (models.py lines 32-39); `correct_answer` is the
optional reference answer for text-input questions, `points` defaults to 1
in the source and is an unconstrained Python `int`. -/
structure QuizQuestion where
  id : String
  type : QuestionType
  options : List QuizOption
  correct_answer : Option String
  points : Int
deriving DecidableEq, Repr

/-- `models.Quiz` (models.py lines 41-48); `passing_score` is a percentage. -/
structure Quiz where
  id : String
  questions : List QuizQuestion
  passing_score : Int
deriving DecidableEq, Repr

/-- `models.ModuleContent` (models.py lines 51-55), restricted to the quiz
payload, the only content field the grading path reads. -/
structure ModuleContent where
  quiz : Option Quiz
deriving DecidableEq, Repr

/-- `models.CourseModule` (models.py lines 57-67), restricted to the fields
read by `submit_quiz` and `_update_course_progress`. -/
structure CourseModule where
  id : String
  content : ModuleContent
deriving DecidableEq, Repr

/-- `models.Course` (models.py lines 70-86), restricted to the fields read by
the modelled operations. -/
structure Course where
  id : String
  modules : List CourseModule
deriving DecidableEq, Repr

/-- A submitted answer: one element of the `answers: List[Dict]` argument of
`CourseService.submit_quiz`, with the shape of `models.QuizAnswer`
(models.py lines 153-156).  `selected_options` defaults to `[]` via
`answer.get("selected_options", [])`; an absent `text_answer` is read as
`""` via `answer.get("text_answer", "")`. -/
structure SubmittedAnswer where
  question_id : String
  selected_options : List String
  text_answer : Option String
deriving DecidableEq, Repr

/-- A stored `module_progress` document, as written by
`CourseService.update_module_progress` (course_service.py lines 148-174). -/
structure ModuleProgress where
  user_access_key : String
  course_id : String
  module_id : String
  completed : Bool
  score : Option ℚ
  last_accessed : String
  completed_at : Option String
deriving DecidableEq, Repr

/-- A stored `course_progress` document, as written by
`CourseService._update_course_progress` (course_service.py lines 176-231). -/
structure CourseProgress where
  user_access_key : String
  course_id : String
  total_modules : Nat
  completed_modules : Nat
  progress_percentage : ℚ
  overall_score : Option ℚ
  last_accessed : String
  started_at : String
  completed_at : Option String
deriving DecidableEq, Repr

/-- A stored `quiz_attempts` document, as inserted by
`CourseService.submit_quiz` (course_service.py lines 316-331); the raw
answers are deliberately not stored (`answers=[]`). -/
structure QuizAttempt where
  user_access_key : String
  course_id : String
  module_id : String
  quiz_id : String
  answers : List SubmittedAnswer
  score : ℚ
  max_score : Int
  passed : Bool
  started_at : String
  completed_at : String
deriving DecidableEq, Repr

/-- The document store: the four collections touched by the modelled
operations of `CourseService`. -/
structure Store where
  courses : List Course
  module_progress : List ModuleProgress
  course_progress : List CourseProgress
  quiz_attempts : List QuizAttempt
deriving DecidableEq, Repr

/-! ## Collection primitives -/

/-- `update_one` on the matching document: rewrite the first list element
satisfying `p` with `f`; MongoDB's `update_one` touches at most one
document. -/
def updateFirst {α : Type} (p : α → Bool) (f : α → α) : List α → List α
  | [] => []
  | x :: xs => if p x then f x :: xs else x :: updateFirst p f xs

/-- `update_one(filter, {"$set": ...}, upsert=True)`: update the first
matching document if one exists, otherwise insert `mk`. -/
def upsert {α : Type} (p : α → Bool) (f : α → α) (mk : α) (l : List α) : List α :=
  if l.any p then updateFirst p f l else l ++ [mk]

/-- `CourseService.get_course` (course_service.py lines 31-36):
`find_one({"id": course_id})`. -/
def get_course (st : Store) (course_id : String) : Option Course :=
  st.courses.find? (fun c => c.id == course_id)

/-! ## Grading engine (CourseService.submit_quiz) -/

/-- Python `set(xs) == set(ys)` on lists of option ids
(course_service.py line 297). -/
def eqAsSets (xs ys : List String) : Bool :=
  xs.all (fun x => ys.contains x) && ys.all (fun y => xs.contains y)

/-- The ids of the correct options of a question:
`[opt.id for opt in question.options if opt.is_correct]`
(course_service.py line 290). -/
def correctOptionIds (q : QuizQuestion) : List String :=
  (q.options.filter (fun o => o.is_correct)).map (fun o => o.id)

/-- Python `str.lower()` (course_service.py line 308): character-wise
lowercasing.  `Char.toLower` folds exactly the ASCII letters, which agrees
with Python on ASCII reference answers. -/
def lower (s : String) : String := ⟨s.data.map Char.toLower⟩

/-- Python `str.strip()` (course_service.py line 308): drop leading and
trailing whitespace. -/
def strip (s : String) : String :=
  ⟨((s.data.dropWhile Char.isWhitespace).reverse.dropWhile
      Char.isWhitespace).reverse⟩

/-- `x.lower().strip()`: the normalization applied to both sides of the
text-input comparison (course_service.py line 308). -/
def normalizeText (s : String) : String := strip (lower s)

/-- The per-answer scoring switch of `CourseService.submit_quiz`
(course_service.py lines 288-309): the points this answer earns for
question `q`.  `none` models the `AttributeError` raised on line 308 when a
text-input question has `correct_answer = None` (`None.lower()`).
A `match` on a one-element list models `len(selected_options) == 1` with
`selected_options[0]` bound; no branch of the source switch handles
`essay`, so it earns 0. -/
def score_answer (q : QuizQuestion) (a : SubmittedAnswer) : Option Int :=
  match q.type with
  | .single_choice =>
      some (match a.selected_options with
            | [s] => if (correctOptionIds q).contains s then q.points else 0
            | _ => 0)
  | .multiple_choice =>
      some (if eqAsSets a.selected_options (correctOptionIds q) then q.points else 0)
  | .true_false =>
      let correct_option := (q.options.find? (fun o => o.is_correct)).map (fun o => o.id)
      some (match a.selected_options with
            | [s] => if correct_option = some s then q.points else 0
            | _ => 0)
  | .text_input =>
      match q.correct_answer with
      | none => none
      | some ref =>
          some (if normalizeText (a.text_answer.getD "") == normalizeText ref
                then q.points else 0)
  | .essay => some 0

/-- The answer loop of `CourseService.submit_quiz`
(course_service.py lines 283-309) with the running `earned_points`
accumulator `acc`; answers whose `question_id` matches no question are
skipped (`continue`). -/
def grade_answers (questions : List QuizQuestion) :
    List SubmittedAnswer → Int → Option Int
  | [], acc => some acc
  | a :: rest, acc =>
      match questions.find? (fun q => q.id == a.question_id) with
      | none => grade_answers questions rest acc
      | some q =>
          match score_answer q a with
          | none => none
          | some p => grade_answers questions rest (acc + p)

/-- `total_points = sum(q.points for q in quiz.questions)`
(course_service.py line 280). -/
def total_points (quiz : Quiz) : Int :=
  (quiz.questions.map (fun q => q.points)).sum

/-- The module/quiz lookup loop of `CourseService.submit_quiz`
(course_service.py lines 266-274): scan for the first module with the given
id, `break` there, and take its quiz only when present with the given id. -/
def find_quiz (course : Course) (module_id quiz_id : String) : Option Quiz :=
  match course.modules.find? (fun m => m.id == module_id) with
  | none => none
  | some m =>
      match m.content.quiz with
      | none => none
      | some qz => if qz.id == quiz_id then some qz else none

/-! ## Progress aggregation -/

/-- The `count_documents` filter of `_update_course_progress`
(course_service.py lines 188-192). -/
def completedCount (st : Store) (user_access_key course_id : String) : Nat :=
  (st.module_progress.filter (fun r =>
    r.user_access_key == user_access_key && r.course_id == course_id
      && r.completed)).length

/-- The scores selected by the `$match` stage of the average pipeline of
`_update_course_progress` (course_service.py lines 198-209): completed
records for the pair with a non-null score. -/
def completedScores (st : Store) (user_access_key course_id : String) : List ℚ :=
  (st.module_progress.filter (fun r =>
    r.user_access_key == user_access_key && r.course_id == course_id
      && r.completed && r.score.isSome)).filterMap (fun r => r.score)

/-- The `$avg` result of the pipeline (course_service.py lines 211-212):
`None` when the `$match` stage selects no document, otherwise the
arithmetic mean. -/
def overallScore (st : Store) (user_access_key course_id : String) : Option ℚ :=
  let scores := completedScores st user_access_key course_id
  if scores.isEmpty then none
  else some (scores.sum / (scores.length : ℚ))

/-- The key filter of the `course_progress` upsert
(course_service.py line 228). -/
def cpKey (user_access_key course_id : String) (r : CourseProgress) : Bool :=
  r.user_access_key == user_access_key && r.course_id == course_id

/-- `find_one` on `course_progress` for a (user, course) pair. -/
def findCourseProgress (st : Store) (user_access_key course_id : String) :
    Option CourseProgress :=
  st.course_progress.find? (cpKey user_access_key course_id)

/-- `progress_percentage = (completed_count / total_modules) * 100`
(course_service.py line 195). -/
def progressPercentage (st : Store) (user_access_key course_id : String)
    (total_modules : Nat) : ℚ :=
  ((completedCount st user_access_key course_id : ℚ) / (total_modules : ℚ)) * 100

/-- The effect of the `$set` document `progress_data` of
`_update_course_progress` (course_service.py lines 214-225) on an existing
`course_progress` record: every aggregate field is overwritten,
`started_at` survives, and `completed_at` is overwritten exactly when the
recomputed percentage reaches 100 (the key is only present in
`progress_data` in that case). -/
def cpSet (st : Store) (user_access_key course_id now : String)
    (total_modules : Nat) (r : CourseProgress) : CourseProgress :=
  { r with
    user_access_key := user_access_key
    course_id := course_id
    total_modules := total_modules
    completed_modules := completedCount st user_access_key course_id
    progress_percentage := progressPercentage st user_access_key course_id total_modules
    overall_score := overallScore st user_access_key course_id
    last_accessed := now
    completed_at :=
      if progressPercentage st user_access_key course_id total_modules ≥ 100
      then some now else r.completed_at }

/-- The document inserted when the upsert of `_update_course_progress`
matches nothing (course_service.py lines 227-231): the `$set` fields plus
`started_at = now` from `$setOnInsert`; `completed_at` is present only when
the percentage reaches 100. -/
def cpInsert (st : Store) (user_access_key course_id now : String)
    (total_modules : Nat) : CourseProgress :=
  { user_access_key := user_access_key
    course_id := course_id
    total_modules := total_modules
    completed_modules := completedCount st user_access_key course_id
    progress_percentage := progressPercentage st user_access_key course_id total_modules
    overall_score := overallScore st user_access_key course_id
    last_accessed := now
    started_at := now
    completed_at :=
      if progressPercentage st user_access_key course_id total_modules ≥ 100
      then some now else none }

/-- `CourseService._update_course_progress` (course_service.py lines
176-231): early return when the course is missing or has no modules;
otherwise recompute the aggregate fields and upsert them into
`course_progress` keyed by (user, course). -/
def update_course_progress (st : Store) (user_access_key course_id now : String) :
    Store :=
  match get_course st course_id with
  | none => st
  | some course =>
      if course.modules.length = 0 then st
      else
        { st with
          course_progress :=
            upsert (cpKey user_access_key course_id)
              (cpSet st user_access_key course_id now course.modules.length)
              (cpInsert st user_access_key course_id now course.modules.length)
              st.course_progress }

/-- The key filter of the `module_progress` upsert
(course_service.py line 166). -/
def mpKey (user_access_key course_id module_id : String) (r : ModuleProgress) :
    Bool :=
  r.user_access_key == user_access_key && r.course_id == course_id
    && r.module_id == module_id

/-- `CourseService.update_module_progress` (course_service.py lines
148-174): `$set` upsert of the progress document keyed by the triple — the
`score` key is written only when a score is supplied and `completed_at`
only when `completed` is true, so on update the old values survive
otherwise — followed by the course-progress recomputation. -/
def update_module_progress (st : Store)
    (user_access_key course_id module_id : String)
    (completed : Bool) (score : Option ℚ) (now : String) : Store :=
  let upd := fun (r : ModuleProgress) =>
    { r with
      user_access_key := user_access_key
      course_id := course_id
      module_id := module_id
      completed := completed
      score := match score with | some s => some s | none => r.score
      last_accessed := now
      completed_at := if completed then some now else r.completed_at }
  let mk : ModuleProgress :=
    { user_access_key := user_access_key
      course_id := course_id
      module_id := module_id
      completed := completed
      score := score
      last_accessed := now
      completed_at := if completed then some now else none }
  let st' := { st with
    module_progress :=
      upsert (mpKey user_access_key course_id module_id) upd mk
        st.module_progress }
  update_course_progress st' user_access_key course_id now

/-! ## submit_quiz -/

/-- The dictionary returned by `submit_quiz` on success
(course_service.py lines 336-342). -/
structure QuizResult where
  score : ℚ
  max_score : Int
  earned_points : Int
  passed : Bool
  passing_score : Int
deriving DecidableEq, Repr

/-- The result of `submit_quiz`: either the structured error dictionary
`{"error": msg}` or the score dictionary. -/
inductive SubmitOutcome where
  | err (msg : String)
  | ok (result : QuizResult)
deriving DecidableEq, Repr

/-- `CourseService.submit_quiz` (course_service.py lines 259-342), returning
the outcome together with the store after its writes; `none` models a
raised exception inside the scoring loop.  On the two error paths the
function returns before any write, so the store comes back unchanged. -/
def submit_quiz (st : Store)
    (user_access_key course_id module_id quiz_id : String)
    (answers : List SubmittedAnswer) (now : String) :
    Option (SubmitOutcome × Store) :=
  match get_course st course_id with
  | none => some (.err "Course not found", st)
  | some course =>
      match find_quiz course module_id quiz_id with
      | none => some (.err "Quiz not found", st)
      | some quiz =>
          match grade_answers quiz.questions answers 0 with
          | none => none
          | some earned_points =>
              let score_percentage : ℚ :=
                if total_points quiz > 0 then
                  ((earned_points : ℚ) / ((total_points quiz : Int) : ℚ)) * 100
                else 0
              let passed : Bool :=
                decide (score_percentage ≥ (quiz.passing_score : ℚ))
              let attempt : QuizAttempt :=
                { user_access_key := user_access_key
                  course_id := course_id
                  module_id := module_id
                  quiz_id := quiz_id
                  answers := []
                  score := score_percentage
                  max_score := total_points quiz
                  passed := passed
                  started_at := now
                  completed_at := now }
              let st1 := { st with quiz_attempts := st.quiz_attempts ++ [attempt] }
              let st2 := update_module_progress st1 user_access_key course_id
                module_id passed (some score_percentage) now
              some (.ok { score := score_percentage
                          max_score := total_points quiz
                          earned_points := earned_points
                          passed := passed
                          passing_score := quiz.passing_score }, st2)

/-- The outcome component of `submit_quiz`, ignoring the final store. -/
def submitQuizOutcome (st : Store)
    (user_access_key course_id module_id quiz_id : String)
    (answers : List SubmittedAnswer) (now : String) : Option SubmitOutcome :=
  (submit_quiz st user_access_key course_id module_id quiz_id answers now).map
    (fun p => p.1)

/-! ## Helper lemmas -/

/-- `eqAsSets` is exactly Python set equality: same members. -/
theorem eqAsSets_iff (xs ys : List String) :
    eqAsSets xs ys = true ↔ ∀ s : String, s ∈ xs ↔ s ∈ ys := by
  simp only [eqAsSets, Bool.and_eq_true, List.all_eq_true,
    List.contains_iff_exists_mem_beq, beq_iff_eq]
  constructor
  · rintro ⟨h1, h2⟩ s
    constructor
    · intro hs
      obtain ⟨t, ht, rfl⟩ := h1 s hs
      exact ht
    · intro hs
      obtain ⟨t, ht, rfl⟩ := h2 s hs
      exact ht
  · intro h
    exact ⟨fun x hx => ⟨x, (h x).mp hx, rfl⟩, fun y hy => ⟨y, (h y).mpr hy, rfl⟩⟩

/-- `updateFirst` commutes with `find?` when the update preserves the key. -/
theorem find?_updateFirst {α : Type} (p : α → Bool) (f : α → α) (l : List α)
    (hf : ∀ x, p x = true → p (f x) = true) :
    (updateFirst p f l).find? p = (l.find? p).map f := by
  induction l with
  | nil => rfl
  | cons x xs ih =>
    by_cases hx : p x = true
    · simp [updateFirst, hx, List.find?_cons, hf x hx]
    · simp [updateFirst, hx, List.find?_cons, ih]

/-- After an `upsert`, `find?` on the key returns the updated first match
when one existed and the inserted document otherwise. -/
theorem find?_upsert {α : Type} (p : α → Bool) (f : α → α) (mk : α) (l : List α)
    (hf : ∀ x, p x = true → p (f x) = true) (hmk : p mk = true) :
    (upsert p f mk l).find? p = some (((l.find? p).map f).getD mk) := by
  unfold upsert
  by_cases h : l.any p = true
  · obtain ⟨x, hx, hpx⟩ := List.any_eq_true.mp h
    obtain ⟨y, hy⟩ := Option.isSome_iff_exists.mp
      (List.find?_isSome.mpr ⟨x, hx, hpx⟩)
    simp [h, find?_updateFirst p f l hf, hy]
  · have hnone : l.find? p = none := by
      rw [List.find?_eq_none]
      intro x hx hpx
      exact h (List.any_eq_true.mpr ⟨x, hx, hpx⟩)
    simp [h, List.find?_append, hnone, List.find?_cons, hmk]

/-- Splitting the answer loop of `submit_quiz` at a list append. -/
theorem grade_answers_append (questions : List QuizQuestion)
    (xs ys : List SubmittedAnswer) (acc : Int) :
    grade_answers questions (xs ++ ys) acc =
      match grade_answers questions xs acc with
      | none => none
      | some acc2 => grade_answers questions ys acc2 := by
  induction xs generalizing acc with
  | nil => simp [grade_answers]
  | cons a rest ih =>
    simp only [List.cons_append, grade_answers]
    cases hq : questions.find? (fun q => q.id == a.question_id) with
    | none => exact ih acc
    | some q =>
      cases hs : score_answer q a with
      | none => simp [hs]
      | some pts => simpa [hs] using ih (acc + pts)

/-- A list sum of points splits into the part selected by a predicate and
the part it rejects. -/
theorem sum_points_filter_split (l : List QuizQuestion) (p : QuizQuestion → Bool) :
    ((l.filter p).map (fun q => q.points)).sum
      + ((l.filter (fun q => !p q)).map (fun q => q.points)).sum
      = (l.map (fun q => q.points)).sum := by
  induction l with
  | nil => simp
  | cons x xs ih =>
    by_cases hx : p x = true
    · simp [List.filter_cons, hx]
      omega
    · simp [List.filter_cons, hx]
      omega

/-- `_update_course_progress` writes only the `course_progress` collection:
courses, module-progress records and quiz attempts are untouched. -/
theorem update_course_progress_frame (st : Store) (uk cid now : String) :
    (update_course_progress st uk cid now).courses = st.courses ∧
    (update_course_progress st uk cid now).module_progress = st.module_progress ∧
    (update_course_progress st uk cid now).quiz_attempts = st.quiz_attempts := by
  unfold update_course_progress
  cases get_course st cid with
  | none => exact ⟨rfl, rfl, rfl⟩
  | some course =>
    by_cases h : course.modules.length = 0 <;> simp [h]

/-- The `$set` document of `_update_course_progress` forces the key; this
is the side condition of `find?_upsert` for the course-progress upsert. -/
theorem cpKey_cpSet (st : Store) (uk cid now : String) (total : Nat)
    (r : CourseProgress) : cpKey uk cid (cpSet st uk cid now total r) = true := by
  simp [cpKey, cpSet]

/-- The inserted document of `_update_course_progress` carries the key. -/
theorem cpKey_cpInsert (st : Store) (uk cid now : String) (total : Nat) :
    cpKey uk cid (cpInsert st uk cid now total) = true := by
  simp [cpKey, cpInsert]


/-! ## Claims about the grading switch -/

/-- Claim C1: for an answer to a single_choice question (with its unique
correct option `c`, and a positive point value), the grading engine awards
the question's points if and only if exactly one option id is selected and
it is `c`'s id; otherwise the answer earns 0. -/
theorem single_choice_award (q : QuizQuestion) (a : SubmittedAnswer) (c : QuizOption)
    (hty : q.type = QuestionType.single_choice)
    (hc : q.options.filter (fun o => o.is_correct) = [c])
    (hpts : 0 < q.points) :
    (score_answer q a = some q.points ↔ a.selected_options = [c.id]) ∧
    (a.selected_options ≠ [c.id] → score_answer q a = some 0) := by
  have hco : correctOptionIds q = [c.id] := by
    simp [correctOptionIds, hc]
  have key : score_answer q a
      = some (if a.selected_options = [c.id] then q.points else 0) := by
    simp only [score_answer, hty, hco]
    cases hsel : a.selected_options with
    | nil => simp
    | cons s rest =>
      cases rest with
      | nil => by_cases hs : s = c.id <;> simp [hs]
      | cons s2 rest2 => simp
  by_cases hsel : a.selected_options = [c.id]
  · simp [key, hsel]
  · constructor
    · constructor
      · intro h
        rw [key] at h
        simp [hsel] at h
        omega
      · intro h
        exact absurd h hsel
    · intro h
      simp [key, hsel]

/-- Claim C2: for an answer to a multiple_choice question with a positive
point value, the grading engine awards the full points if and only if the
submitted option-id list equals the correct-option-id list as a set;
otherwise the answer earns 0. -/
theorem multiple_choice_award (q : QuizQuestion) (a : SubmittedAnswer)
    (hty : q.type = QuestionType.multiple_choice)
    (hpts : 0 < q.points) :
    (score_answer q a = some q.points ↔
      ∀ s : String, s ∈ a.selected_options ↔ s ∈ correctOptionIds q) ∧
    ((¬ ∀ s : String, s ∈ a.selected_options ↔ s ∈ correctOptionIds q) →
      score_answer q a = some 0) := by
  have key : score_answer q a
      = some (if eqAsSets a.selected_options (correctOptionIds q) then q.points else 0) := by
    simp [score_answer, hty]
  by_cases hset : eqAsSets a.selected_options (correctOptionIds q) = true
  · have hmem := (eqAsSets_iff _ _).mp hset
    refine ⟨⟨fun _ => hmem, fun _ => ?_⟩, fun hcon => absurd hmem hcon⟩
    rw [key]
    simp [hset]
  · have hmem : ¬ ∀ s : String, s ∈ a.selected_options ↔ s ∈ correctOptionIds q :=
      fun h => hset ((eqAsSets_iff _ _).mpr h)
    constructor
    · constructor
      · intro h
        rw [key] at h
        simp [hset] at h
        omega
      · intro h
        exact absurd h hmem
    · intro h
      simp [key, hset]

/-- Claim C3: for an answer to a text_input question with reference answer
`ref` and a positive point value, the grading engine awards the points if
and only if the submitted text, lowercased and stripped of leading/trailing
whitespace, equals `ref` under the same normalization; otherwise the answer
earns 0. -/
theorem text_input_award (q : QuizQuestion) (a : SubmittedAnswer) (ref : String)
    (hty : q.type = QuestionType.text_input)
    (href : q.correct_answer = some ref)
    (hpts : 0 < q.points) :
    (score_answer q a = some q.points ↔
      normalizeText (a.text_answer.getD "") = normalizeText ref) ∧
    (normalizeText (a.text_answer.getD "") ≠ normalizeText ref →
      score_answer q a = some 0) := by
  have key : score_answer q a
      = some (if normalizeText (a.text_answer.getD "") = normalizeText ref
              then q.points else 0) := by
    simp [score_answer, hty, href]
  by_cases heq : normalizeText (a.text_answer.getD "") = normalizeText ref
  · simp [key, heq]
  · constructor
    · constructor
      · intro h
        rw [key] at h
        simp [heq] at h
        omega
      · intro h
        exact absurd h heq
    · intro h
      simp [key, heq]

/-- Claim C4: an answer to an essay question never contributes to
`earned_points` (removing it from any position of the answer list leaves
the graded total unchanged), while essay questions still count toward
`max_score`: the sum of points over all questions splits into the essay
part plus the rest. -/
theorem essay_never_scores (questions : List QuizQuestion)
    (xs ys : List SubmittedAnswer) (a : SubmittedAnswer) (q : QuizQuestion)
    (acc : Int)
    (hfind : questions.find? (fun qq => qq.id == a.question_id) = some q)
    (hty : q.type = QuestionType.essay) :
    grade_answers questions (xs ++ a :: ys) acc
      = grade_answers questions (xs ++ ys) acc ∧
    ∀ quiz : Quiz, total_points quiz =
      ((quiz.questions.filter (fun qq => decide (qq.type = QuestionType.essay))).map
        (fun qq => qq.points)).sum +
      ((quiz.questions.filter (fun qq => !decide (qq.type = QuestionType.essay))).map
        (fun qq => qq.points)).sum := by
  constructor
  · rw [grade_answers_append, grade_answers_append]
    cases h : grade_answers questions xs acc with
    | none => rfl
    | some acc2 =>
      show grade_answers questions (a :: ys) acc2
        = grade_answers questions ys acc2
      simp [grade_answers, hfind, score_answer, hty]
  · intro quiz
    exact (sum_points_filter_split quiz.questions
      (fun qq => decide (qq.type = QuestionType.essay))).symm

def cOpt : QuizOption := { id := "A", text := "Ja", is_correct := true }
def wOpt : QuizOption := { id := "B", text := "Nein", is_correct := false }

def scQuestion : QuizQuestion :=
  { id := "q1", type := .single_choice, options := [cOpt, wOpt],
    correct_answer := none, points := 5 }

def scAnswer : SubmittedAnswer :=
  { question_id := "q1", selected_options := ["A"], text_answer := none }

/-- Witness for C1: the unique correct option of a concrete 5-point
single-choice question, selected alone, earns exactly 5 points. -/
theorem single_choice_award_witness :
    (scQuestion.type = QuestionType.single_choice ∧
     scQuestion.options.filter (fun o => o.is_correct) = [cOpt] ∧
     (0:Int) < scQuestion.points) ∧
    ((score_answer scQuestion scAnswer = some scQuestion.points ↔
        scAnswer.selected_options = [cOpt.id]) ∧
     (scAnswer.selected_options ≠ [cOpt.id] →
        score_answer scQuestion scAnswer = some 0)) ∧
    score_answer scQuestion scAnswer = some 5 :=
  ⟨⟨rfl, by decide, by decide⟩,
   single_choice_award scQuestion scAnswer cOpt rfl (by decide) (by decide),
   by decide⟩

def mcQuestion : QuizQuestion :=
  { id := "q2", type := .multiple_choice,
    options := [{ id := "A", text := "a", is_correct := true },
                { id := "B", text := "b", is_correct := true },
                { id := "C", text := "c", is_correct := false }],
    correct_answer := none, points := 4 }

def mcExact : SubmittedAnswer :=
  { question_id := "q2", selected_options := ["B", "A"], text_answer := none }
def mcSubset : SubmittedAnswer :=
  { question_id := "q2", selected_options := ["A"], text_answer := none }
def mcSuperset : SubmittedAnswer :=
  { question_id := "q2", selected_options := ["A", "B", "C"], text_answer := none }

/-- Witness for C2: with correct set {A,B}, submitting [B,A] earns the full
4 points while [A] and [A,B,C] earn zero. -/
theorem multiple_choice_award_witness :
    (mcQuestion.type = QuestionType.multiple_choice ∧ (0:Int) < mcQuestion.points) ∧
    ((score_answer mcQuestion mcExact = some mcQuestion.points ↔
        ∀ s : String, s ∈ mcExact.selected_options ↔ s ∈ correctOptionIds mcQuestion) ∧
     ((¬ ∀ s : String, s ∈ mcExact.selected_options ↔ s ∈ correctOptionIds mcQuestion) →
        score_answer mcQuestion mcExact = some 0)) ∧
    score_answer mcQuestion mcExact = some 4 ∧
    score_answer mcQuestion mcSubset = some 0 ∧
    score_answer mcQuestion mcSuperset = some 0 :=
  ⟨⟨rfl, by decide⟩,
   multiple_choice_award mcQuestion mcExact rfl (by decide),
   by decide, by decide, by decide⟩

def qParis : QuizQuestion :=
  { id := "qp", type := .text_input, options := [],
    correct_answer := some "Paris", points := 3 }

def aParis1 : SubmittedAnswer :=
  { question_id := "qp", selected_options := [], text_answer := some "paris" }
def aParis2 : SubmittedAnswer :=
  { question_id := "qp", selected_options := [], text_answer := some " Paris " }
def aParis3 : SubmittedAnswer :=
  { question_id := "qp", selected_options := [], text_answer := some "PARIS" }
def aParis4 : SubmittedAnswer :=
  { question_id := "qp", selected_options := [], text_answer := some "Pariss" }

/-- Witness for C3: against reference answer "Paris", the submissions
"paris", " Paris " and "PARIS" earn the 3 points and "Pariss" earns zero. -/
theorem text_input_award_witness :
    (qParis.type = QuestionType.text_input ∧
     qParis.correct_answer = some "Paris" ∧ (0:Int) < qParis.points) ∧
    ((score_answer qParis aParis1 = some qParis.points ↔
        normalizeText (aParis1.text_answer.getD "") = normalizeText "Paris") ∧
     (normalizeText (aParis1.text_answer.getD "") ≠ normalizeText "Paris" →
        score_answer qParis aParis1 = some 0)) ∧
    score_answer qParis aParis1 = some 3 ∧
    score_answer qParis aParis2 = some 3 ∧
    score_answer qParis aParis3 = some 3 ∧
    score_answer qParis aParis4 = some 0 :=
  ⟨⟨rfl, rfl, by decide⟩,
   text_input_award qParis aParis1 "Paris" rfl rfl (by decide),
   by decide, by decide, by decide, by decide⟩

def essayQuestion : QuizQuestion :=
  { id := "q4", type := .essay, options := [], correct_answer := none, points := 7 }
def essayAnswer : SubmittedAnswer :=
  { question_id := "q4", selected_options := [], text_answer := some "mein Aufsatz" }
def essayQuiz : Quiz :=
  { id := "qe", questions := [essayQuestion, scQuestion], passing_score := 70 }

/-- Witness for C4: a concrete essay answer earns 0 and a quiz with a
7-point essay question plus a 5-point single-choice question has
`max_score` 12. -/
theorem essay_never_scores_witness :
    ([essayQuestion].find? (fun qq => qq.id == essayAnswer.question_id)
        = some essayQuestion ∧
     essayQuestion.type = QuestionType.essay) ∧
    (grade_answers [essayQuestion] ([] ++ essayAnswer :: []) 0
        = grade_answers [essayQuestion] ([] ++ []) 0 ∧
     ∀ quiz : Quiz, total_points quiz =
      ((quiz.questions.filter (fun qq => decide (qq.type = QuestionType.essay))).map
        (fun qq => qq.points)).sum +
      ((quiz.questions.filter (fun qq => !decide (qq.type = QuestionType.essay))).map
        (fun qq => qq.points)).sum) ∧
    grade_answers [essayQuestion] [essayAnswer] 0 = some 0 ∧
    total_points essayQuiz = 12 :=
  ⟨⟨by decide, rfl⟩,
   essay_never_scores [essayQuestion] [] [] essayAnswer essayQuestion 0
     (by decide) rfl,
   by decide, by decide⟩


/-! ## Claims about submit_quiz as a whole -/

/-- Claim C5: whenever `submit_quiz` succeeds, the returned
`score_percentage` equals `earned_points / max_score * 100`, is 0 when
`max_score` is 0 (the division is never evaluated with a zero denominator),
and `passed` is exactly `score_percentage >= passing_score`.  The
hypothesis `0 ≤ max_score` reflects the data-model invariant that question
point values are non-negative. -/
theorem score_percentage_formula (st : Store)
    (uk cid mid qid : String) (answers : List SubmittedAnswer) (now : String)
    (r : QuizResult)
    (h : submitQuizOutcome st uk cid mid qid answers now = some (SubmitOutcome.ok r))
    (hnn : 0 ≤ r.max_score) :
    (r.max_score = 0 → r.score = 0) ∧
    (r.max_score ≠ 0 →
      r.score = ((r.earned_points : ℚ) / (r.max_score : ℚ)) * 100) ∧
    r.passed = decide (r.score ≥ (r.passing_score : ℚ)) := by
  unfold submitQuizOutcome submit_quiz at h
  cases hc : get_course st cid with
  | none => rw [hc] at h; simp at h
  | some course =>
    rw [hc] at h
    cases hq : find_quiz course mid qid with
    | none => simp only [hq] at h; simp at h
    | some quiz =>
      cases hg : grade_answers quiz.questions answers 0 with
      | none => simp only [hq, hg] at h; simp at h
      | some ep =>
        simp only [hq, hg, Option.map, Option.some.injEq,
          SubmitOutcome.ok.injEq] at h
        subst h
        refine ⟨?_, ?_, rfl⟩
        · intro h0
          have h0q : total_points quiz = 0 := h0
          show (if total_points quiz > 0
                then ((ep : ℚ) / ((total_points quiz : Int) : ℚ)) * 100 else 0) = 0
          rw [h0q]
          norm_num
        · intro h0
          have h0q : total_points quiz ≠ 0 := h0
          have hnnq : 0 ≤ total_points quiz := hnn
          have hpos : total_points quiz > 0 := by omega
          show (if total_points quiz > 0
                then ((ep : ℚ) / ((total_points quiz : Int) : ℚ)) * 100 else 0)
              = ((ep : ℚ) / ((total_points quiz : Int) : ℚ)) * 100
          simp [hpos]

/-- Claim C6: when the course id matches no course, or the module/quiz
cannot be located inside the found course, `submit_quiz` returns a
structured error result carrying a human-readable reason — not an
exception — and the store comes back unchanged: no QuizAttempt, no
ModuleProgress and no CourseProgress is written or modified. -/
theorem not_found_error_no_write (st : Store)
    (uk cid mid qid : String) (answers : List SubmittedAnswer) (now : String) :
    (get_course st cid = none →
      submit_quiz st uk cid mid qid answers now
        = some (SubmitOutcome.err "Course not found", st)) ∧
    (∀ course, get_course st cid = some course → find_quiz course mid qid = none →
      submit_quiz st uk cid mid qid answers now
        = some (SubmitOutcome.err "Quiz not found", st)) := by
  constructor
  · intro h
    simp [submit_quiz, h]
  · intro course hc hq
    simp [submit_quiz, hc, hq]

-- C5 witness data
def emptyQuiz : Quiz := { id := "qz0", questions := [], passing_score := 70 }
def emptyQuizCourse : Course :=
  { id := "c", modules := [{ id := "m", content := { quiz := some emptyQuiz } }] }
def S5 : Store :=
  { courses := [emptyQuizCourse], module_progress := [], course_progress := [],
    quiz_attempts := [] }
def R5 : QuizResult :=
  { score := 0, max_score := 0, earned_points := 0, passed := false,
    passing_score := 70 }

/-- Witness for C5: a quiz with no questions has `max_score = 0`; grading
returns `score_percentage = 0` and `passed = (0 >= 70) = false`. -/
theorem score_percentage_formula_witness :
    (submitQuizOutcome S5 "u" "c" "m" "qz0" [] "t" = some (SubmitOutcome.ok R5) ∧
     (0:Int) ≤ R5.max_score) ∧
    ((R5.max_score = 0 → R5.score = 0) ∧
     (R5.max_score ≠ 0 →
       R5.score = ((R5.earned_points : ℚ) / (R5.max_score : ℚ)) * 100) ∧
     R5.passed = decide (R5.score ≥ (R5.passing_score : ℚ))) :=
  ⟨⟨by norm_num [submitQuizOutcome, submit_quiz, S5, emptyQuizCourse, emptyQuiz,
      get_course, find_quiz, grade_answers, total_points, R5], by decide⟩,
   score_percentage_formula S5 "u" "c" "m" "qz0" [] "t" R5
     (by norm_num [submitQuizOutcome, submit_quiz, S5, emptyQuizCourse, emptyQuiz,
        get_course, find_quiz, grade_answers, total_points, R5])
     (by decide)⟩

-- C6 witness data
def S6 : Store :=
  { courses := [emptyQuizCourse], module_progress := [], course_progress := [],
    quiz_attempts := [] }

/-- Witness for C6: both error paths on a concrete store — unknown course
id, and known course with an unknown quiz id — return the structured error
and leave the store untouched. -/
theorem not_found_error_no_write_witness :
    (get_course S6 "missing" = none ∧
     submit_quiz S6 "u" "missing" "m" "qz0" [] "t"
       = some (SubmitOutcome.err "Course not found", S6)) ∧
    (get_course S6 "c" = some emptyQuizCourse ∧
     find_quiz emptyQuizCourse "m" "other-quiz" = none ∧
     submit_quiz S6 "u" "c" "m" "other-quiz" [] "t"
       = some (SubmitOutcome.err "Quiz not found", S6)) :=
  ⟨⟨by decide,
    (not_found_error_no_write S6 "u" "missing" "m" "qz0" [] "t").1 (by decide)⟩,
   ⟨by decide, by decide,
    (not_found_error_no_write S6 "u" "c" "m" "other-quiz" [] "t").2
      emptyQuizCourse (by decide) (by decide)⟩⟩

-- C10 data
def dupQuiz : Quiz := { id := "qz", questions := [scQuestion], passing_score := 70 }
def dupCourse : Course :=
  { id := "c", modules := [{ id := "m", content := { quiz := some dupQuiz } }] }
def S10 : Store :=
  { courses := [dupCourse], module_progress := [], course_progress := [],
    quiz_attempts := [] }

/-- Claim C10: `submit_quiz` counts the same question once per matching
answer entry: submitting the correct answer to the single 5-point question
twice yields `earned_points = 10 > max_score = 5` and a returned
`score_percentage` of 200 > 100. -/
theorem duplicate_answers_double_count :
    submitQuizOutcome S10 "u" "c" "m" "qz" [scAnswer, scAnswer] "t"
      = some (SubmitOutcome.ok
          { score := 200, max_score := 5, earned_points := 10,
            passed := true, passing_score := 70 }) ∧
    total_points dupQuiz = 5 ∧ (10:Int) > 5 ∧ (200:ℚ) > 100 := by
  refine ⟨?_, by decide, by decide, by norm_num⟩
  norm_num [submitQuizOutcome, submit_quiz, S10, dupCourse, dupQuiz, scQuestion,
    scAnswer, cOpt, wOpt, get_course, find_quiz, grade_answers, score_answer,
    correctOptionIds, total_points]


/-! ## Claims about the progress aggregator -/

/-- After a recomputation that finds a course with modules, the
course-progress record for the pair is the `$set`-updated first match, or
the inserted document when none matched. -/
theorem findCourseProgress_update (st : Store) (uk cid now : String)
    (course : Course)
    (hc : get_course st cid = some course)
    (hn : course.modules.length ≠ 0) :
    findCourseProgress (update_course_progress st uk cid now) uk cid
      = some (((st.course_progress.find? (cpKey uk cid)).map
          (cpSet st uk cid now course.modules.length)).getD
          (cpInsert st uk cid now course.modules.length)) := by
  unfold update_course_progress
  rw [hc]
  simp only [hn, if_false, if_neg]
  unfold findCourseProgress
  exact find?_upsert (cpKey uk cid) _ _ st.course_progress
    (fun x _ => cpKey_cpSet st uk cid now course.modules.length x)
    (cpKey_cpInsert st uk cid now course.modules.length)

/-- The aggregate fields any upserted course-progress record carries,
whether it arose from an update or an insert. -/
theorem cp_fields (st : Store) (uk cid now : String) (total : Nat)
    (o : Option CourseProgress) (r : CourseProgress)
    (hr : r = (o.map (cpSet st uk cid now total)).getD (cpInsert st uk cid now total)) :
    r.total_modules = total ∧
    r.completed_modules = completedCount st uk cid ∧
    r.progress_percentage = progressPercentage st uk cid total ∧
    r.overall_score = overallScore st uk cid ∧
    r.last_accessed = now := by
  subst hr
  cases o <;> simp [cpSet, cpInsert]

/-- Claim C7: for every user key and course with at least one module, the
recomputation stores a course-progress record with
`progress_percentage = completed_modules / total_modules * 100` and
`overall_score` = the arithmetic mean of `score` over the completed,
non-null-score ModuleProgress records of the pair, or `none` when no such
record exists. -/
theorem course_progress_formulas (st : Store) (uk cid now : String)
    (course : Course)
    (hc : get_course st cid = some course)
    (hn : course.modules.length ≠ 0) :
    ∃ rec, findCourseProgress (update_course_progress st uk cid now) uk cid
        = some rec ∧
      rec.total_modules = course.modules.length ∧
      rec.completed_modules = completedCount st uk cid ∧
      rec.progress_percentage
        = ((completedCount st uk cid : ℚ) / (course.modules.length : ℚ)) * 100 ∧
      (completedScores st uk cid = [] → rec.overall_score = none) ∧
      (completedScores st uk cid ≠ [] →
        rec.overall_score = some ((completedScores st uk cid).sum
          / ((completedScores st uk cid).length : ℚ))) ∧
      rec.last_accessed = now := by
  have h1 := findCourseProgress_update st uk cid now course hc hn
  obtain ⟨ht, hcm, hpp, hos, hla⟩ := cp_fields st uk cid now course.modules.length
    (st.course_progress.find? (cpKey uk cid)) _ rfl
  refine ⟨_, h1, ht, hcm, ?_, ?_, ?_, hla⟩
  · rw [hpp]
    rfl
  · intro hempty
    rw [hos]
    unfold overallScore
    simp [hempty]
  · intro hne
    rw [hos]
    unfold overallScore
    simp only [List.isEmpty_iff, if_neg, hne]
    simp [hne]

/-- Claim C8: when the course of a progress recomputation does not exist or
has zero modules, the aggregator returns early and the store is unchanged:
no CourseProgress record is created or updated. -/
theorem zero_modules_no_write (st : Store) (uk cid now : String)
    (h : get_course st cid = none ∨
      ∃ course, get_course st cid = some course ∧ course.modules.length = 0) :
    update_course_progress st uk cid now = st := by
  unfold update_course_progress
  rcases h with h | ⟨course, hc, hlen⟩
  · rw [h]
  · rw [hc]
    simp [hlen]

/-- Claim C9 (amended): recomputing twice with unchanged underlying
ModuleProgress data produces an identical CourseProgress document except
for `last_accessed` — and except for `completed_at`, which is re-set to the
new timestamp on every call while the percentage is at or above 100. -/
theorem recompute_idempotent_amended (st : Store) (uk cid now1 now2 : String)
    (course : Course)
    (hc : get_course st cid = some course)
    (hn : course.modules.length ≠ 0) :
    ∃ r1 r2,
      findCourseProgress (update_course_progress st uk cid now1) uk cid = some r1 ∧
      findCourseProgress
        (update_course_progress (update_course_progress st uk cid now1) uk cid now2)
        uk cid = some r2 ∧
      r2.total_modules = r1.total_modules ∧
      r2.completed_modules = r1.completed_modules ∧
      r2.progress_percentage = r1.progress_percentage ∧
      r2.overall_score = r1.overall_score ∧
      r2.started_at = r1.started_at ∧
      r2.last_accessed = now2 ∧
      (r1.progress_percentage < 100 → r2.completed_at = r1.completed_at) ∧
      (r1.progress_percentage ≥ 100 → r2.completed_at = some now2) := by
  obtain ⟨hcs, hmp, -⟩ := update_course_progress_frame st uk cid now1
  have h1 := findCourseProgress_update st uk cid now1 course hc hn
  have hc1 : get_course (update_course_progress st uk cid now1) cid = some course := by
    unfold get_course
    rw [hcs]
    exact hc
  have h2 := findCourseProgress_update (update_course_progress st uk cid now1)
    uk cid now2 course hc1 hn
  have hcc : completedCount (update_course_progress st uk cid now1) uk cid
      = completedCount st uk cid := by
    unfold completedCount
    rw [hmp]
  have hsc : completedScores (update_course_progress st uk cid now1) uk cid
      = completedScores st uk cid := by
    unfold completedScores
    rw [hmp]
  have hos : overallScore (update_course_progress st uk cid now1) uk cid
      = overallScore st uk cid := by
    unfold overallScore
    rw [hsc]
  have hpp : progressPercentage (update_course_progress st uk cid now1) uk cid
      course.modules.length = progressPercentage st uk cid course.modules.length := by
    unfold progressPercentage
    rw [hcc]
  have hfind1 : (update_course_progress st uk cid now1).course_progress.find?
      (cpKey uk cid)
      = some (((st.course_progress.find? (cpKey uk cid)).map
          (cpSet st uk cid now1 course.modules.length)).getD
          (cpInsert st uk cid now1 course.modules.length)) := h1
  rw [hfind1] at h2
  simp only [Option.map_some', Option.getD_some] at h2
  obtain ⟨ht1, hcm1, hpp1, hos1, hla1⟩ := cp_fields st uk cid now1
    course.modules.length (st.course_progress.find? (cpKey uk cid)) _ rfl
  refine ⟨_, _, h1, h2, ?_, ?_, ?_, ?_, ?_, ?_, ?_, ?_⟩
  · rw [ht1]
    rfl
  · show completedCount (update_course_progress st uk cid now1) uk cid
      = _
    rw [hcc, hcm1]
  · show progressPercentage (update_course_progress st uk cid now1) uk cid
      course.modules.length = _
    rw [hpp, hpp1]
  · show overallScore (update_course_progress st uk cid now1) uk cid = _
    rw [hos, hos1]
  · rfl
  · rfl
  · intro hlt
    rw [hpp1] at hlt
    show (if progressPercentage (update_course_progress st uk cid now1) uk cid
        course.modules.length ≥ 100 then some now2 else _) = _
    rw [hpp]
    rw [if_neg (by exact fun hge => absurd hlt (not_lt.mpr hge))]
  · intro hge
    rw [hpp1] at hge
    show (if progressPercentage (update_course_progress st uk cid now1) uk cid
        course.modules.length ≥ 100 then some now2 else _) = some now2
    rw [hpp]
    rw [if_pos hge]

def m1Mod : CourseModule := { id := "m1", content := { quiz := none } }
def m2Mod : CourseModule := { id := "m2", content := { quiz := none } }
def twoModCourse : Course := { id := "c", modules := [m1Mod, m2Mod] }
def mpCompleted : ModuleProgress :=
  { user_access_key := "u", course_id := "c", module_id := "m1",
    completed := true, score := some 80, last_accessed := "t0",
    completed_at := some "t0" }
def mpIncomplete : ModuleProgress :=
  { user_access_key := "u", course_id := "c", module_id := "m2",
    completed := false, score := none, last_accessed := "t0",
    completed_at := none }
def S7 : Store :=
  { courses := [twoModCourse], module_progress := [mpCompleted, mpIncomplete],
    course_progress := [], quiz_attempts := [] }

/-- Witness for C7: a course with 2 modules, one ModuleProgress completed
with score 80 and one incomplete, yields `progress_percentage = 50` and
`overall_score = 80`. -/
theorem course_progress_formulas_witness :
    (get_course S7 "c" = some twoModCourse ∧ twoModCourse.modules.length ≠ 0) ∧
    (∃ rec, findCourseProgress (update_course_progress S7 "u" "c" "t1") "u" "c"
        = some rec ∧
      rec.total_modules = twoModCourse.modules.length ∧
      rec.completed_modules = completedCount S7 "u" "c" ∧
      rec.progress_percentage
        = ((completedCount S7 "u" "c" : ℚ) / (twoModCourse.modules.length : ℚ)) * 100 ∧
      (completedScores S7 "u" "c" = [] → rec.overall_score = none) ∧
      (completedScores S7 "u" "c" ≠ [] →
        rec.overall_score = some ((completedScores S7 "u" "c").sum
          / ((completedScores S7 "u" "c").length : ℚ))) ∧
      rec.last_accessed = "t1") ∧
    completedCount S7 "u" "c" = 1 ∧
    completedScores S7 "u" "c" = [80] ∧
    ((completedCount S7 "u" "c" : ℚ) / (twoModCourse.modules.length : ℚ)) * 100 = 50 ∧
    (completedScores S7 "u" "c").sum / ((completedScores S7 "u" "c").length : ℚ) = 80 :=
  ⟨⟨by decide, by decide⟩,
   course_progress_formulas S7 "u" "c" "t1" twoModCourse (by decide) (by decide),
   by decide, by decide,
   by norm_num [completedCount, S7, mpCompleted, mpIncomplete, twoModCourse, m1Mod, m2Mod],
   by
     have h : completedScores S7 "u" "c" = [80] := by decide
     rw [h]
     norm_num⟩

def emptyCourse : Course := { id := "c0", modules := [] }
def S8 : Store :=
  { courses := [emptyCourse], module_progress := [], course_progress := [],
    quiz_attempts := [] }

/-- Witness for C8: recomputation against a concrete zero-module course
leaves the concrete store exactly as it was. -/
theorem zero_modules_no_write_witness :
    (get_course S8 "c0" = some emptyCourse ∧ emptyCourse.modules.length = 0) ∧
    update_course_progress S8 "u" "c0" "t" = S8 :=
  ⟨⟨by decide, by decide⟩,
   zero_modules_no_write S8 "u" "c0" "t" (Or.inr ⟨emptyCourse, by decide, by decide⟩)⟩

def oneModCourse : Course := { id := "c", modules := [m1Mod] }
def S9 : Store :=
  { courses := [oneModCourse], module_progress := [mpCompleted],
    course_progress := [], quiz_attempts := [] }

/-- Counterexample to Claim C9 as stated: on a one-module course whose
module is completed (percentage 100), two successive recomputations at
times "t1" and "t2" leave the module-progress data untouched yet produce
course-progress documents that differ in `completed_at` (some "t1" vs
some "t2"), not only in `last_accessed`. -/
theorem idempotence_counterexample :
    (update_course_progress S9 "u" "c" "t1").module_progress = S9.module_progress ∧
    (findCourseProgress (update_course_progress S9 "u" "c" "t1") "u" "c").map
        (fun r => r.completed_at) = some (some "t1") ∧
    (findCourseProgress
        (update_course_progress (update_course_progress S9 "u" "c" "t1") "u" "c" "t2")
        "u" "c").map (fun r => r.completed_at) = some (some "t2") ∧
    (some "t1" : Option String) ≠ some "t2" := by
  refine ⟨?_, ?_, ?_, by decide⟩ <;>
    norm_num [update_course_progress, get_course, S9, oneModCourse, m1Mod,
      mpCompleted, completedCount, completedScores, overallScore,
      progressPercentage, cpSet, cpInsert, cpKey, upsert, updateFirst,
      findCourseProgress]

/-- Witness for the amended C9 on a concrete store. -/
theorem recompute_idempotent_amended_witness :
    (get_course S9 "c" = some oneModCourse ∧ oneModCourse.modules.length ≠ 0) ∧
    (∃ r1 r2,
      findCourseProgress (update_course_progress S9 "u" "c" "t1") "u" "c" = some r1 ∧
      findCourseProgress
        (update_course_progress (update_course_progress S9 "u" "c" "t1") "u" "c" "t2")
        "u" "c" = some r2 ∧
      r2.total_modules = r1.total_modules ∧
      r2.completed_modules = r1.completed_modules ∧
      r2.progress_percentage = r1.progress_percentage ∧
      r2.overall_score = r1.overall_score ∧
      r2.started_at = r1.started_at ∧
      r2.last_accessed = "t2" ∧
      (r1.progress_percentage < 100 → r2.completed_at = r1.completed_at) ∧
      (r1.progress_percentage ≥ 100 → r2.completed_at = some "t2")) :=
  ⟨⟨by decide, by decide⟩,
   recompute_idempotent_amended S9 "u" "c" "t1" "t2" oneModCourse
     (by decide) (by decide)⟩


end Schulung
